import Mathlib

/-!
Verification of the translation-and-relay engine of the DEEPSEEK-PROXY
repository (a Go HTTP gateway translating an OpenAI-style chat wire format
into the DeepSeek wire format).

The Go source is shallowly embedded: every definition below is translated
from a named function of the source tree (the comment above each one names
the file and lines it embeds).  Values of Go's `interface\x7b\x7d` that hold
decoded JSON are modelled by the `Json` inductive; the standard library
JSON codec (`json.Marshal` / `json.Unmarshal`) is modelled by the
executable serializer `Json.serialize` together with explicit
classification of upstream bytes into parse outcomes, since the codec
itself is Go standard-library code, not code of this repository.
-/

/-- A JSON value as produced by Go's `json.Unmarshal` into
`interface\x7b\x7d`: null, booleans, numbers, strings, arrays and objects
(objects are association lists of fields).  Numbers are modelled as
integers; no claim depends on float formatting. -/
inductive Json where
  | null : Json
  | bool (b : Bool) : Json
  | num (n : Int) : Json
  | str (s : String) : Json
  | arr (elements : List Json) : Json
  | obj (fields : List (String × Json)) : Json

/-- Escaping of a single character inside a JSON string literal, as
`json.Marshal` does for the characters relevant here. -/
def escapeJsonChar (c : Char) : String :=
  if c = '"' then "\\\""
  else if c = '\\' then "\\\\"
  else if c = '\n' then "\\n"
  else String.singleton c

/-- Escaping of a whole string for inclusion in JSON output. -/
def escapeJson (s : String) : String :=
  String.join (s.toList.map escapeJsonChar)

mutual

/-- Rendering of a `Json` value back to bytes, modelling `json.Marshal`
(handlers.go:554, handlers.go:347 and elsewhere).  Object fields are
rendered in list order. -/
def Json.serialize : Json → String
  | .null => "null"
  | .bool true => "true"
  | .bool false => "false"
  | .num n => toString n
  | .str s => "\"" ++ escapeJson s ++ "\""
  | .arr elements => "[" ++ Json.serializeList elements ++ "]"
  | .obj fields => "\x7b" ++ Json.serializeFields fields ++ "\x7d"

/-- Comma-separated rendering of a JSON array's elements. -/
def Json.serializeList : List Json → String
  | [] => ""
  | [j] => j.serialize
  | j :: rest => j.serialize ++ "," ++ Json.serializeList rest

/-- Comma-separated rendering of a JSON object's fields. -/
def Json.serializeFields : List (String × Json) → String
  | [] => ""
  | [(k, v)] => "\"" ++ escapeJson k ++ "\":" ++ v.serialize
  | (k, v) :: rest =>
      "\"" ++ escapeJson k ++ "\":" ++ v.serialize ++ "," ++ Json.serializeFields rest

end

/-!  ## The stream relay (handlers.go, first revision, lines 487–561)

`processStreamingData` reads the upstream Server-Sent-Events body one line
at a time with `bufio.Scanner`.  Each loop iteration first polls the
cancellation context (`select` with a `default` branch) and then
classifies the line:

  * `"data: " ++ payload` with `payload == "[DONE]"`: write the sentinel
    frame downstream, flush, and return (stop reading upstream);
  * `"data: " ++ payload` otherwise: `convertStreamChunk` parses the
    payload with `json.Unmarshal` into a `map[string]interface\x7b\x7d`,
    overwrites the `"model"` entry with the client's requested model when
    that key exists, and re-marshals; an empty or unparseable payload
    yields `""` and the line is dropped silently;
  * an empty line: skipped;
  * any other line: written through verbatim followed by a newline.
-/

/-- The payload of a non-sentinel `data:` line, classified by the outcome
of `json.Unmarshal` into a `map[string]interface\x7b\x7d`
(handlers.go:542-545): `wellFormed fields` is a payload that decodes to
the JSON object `fields`; `malformed raw` is a payload that the decoder
rejects (invalid JSON or non-object JSON) or the empty payload — both are
dropped by the relay. -/
inductive ChunkPayload where
  | wellFormed (fields : List (String × Json)) : ChunkPayload
  | malformed (raw : String) : ChunkPayload

/-- A `data:` line's content: either the literal termination sentinel
`"[DONE]"` or a chunk payload. -/
inductive SSEData where
  | done : SSEData
  | chunk (p : ChunkPayload) : SSEData

/-- One upstream SSE line, classified as the relay loop classifies it
(handlers.go:504-529): a `data: `-prefixed line, a blank line, or any
other line. -/
inductive SSELine where
  | data (payload : SSEData) : SSELine
  | blank : SSELine
  | other (line : String) : SSELine

/-- The model-name rewrite performed on a decoded chunk
(handlers.go:549-552): if the object has a `"model"` key, its value is
replaced by the client's originally requested model name; otherwise the
object is unchanged. -/
def setChunkModel (fields : List (String × Json)) (originalModel : String) :
    List (String × Json) :=
  if (fields.lookup "model").isSome then
    fields.map (fun kv => if kv.1 = "model" then (kv.1, Json.str originalModel) else kv)
  else fields

/-- `convertStreamChunk` (handlers.go:541-561): decode the payload,
rewrite the model name, re-serialize; return `""` when decoding fails so
that the caller drops the line. -/
def convertStreamChunk (payload : ChunkPayload) (originalModel : String) : String :=
  match payload with
  | .malformed _ => ""
  | .wellFormed fields => Json.serialize (.obj (setChunkModel fields originalModel))

/-- `processStreamingData` (handlers.go:487-538).  `cancelled i` models
whether the request context's Done channel is closed when the `select` at
the top of iteration `i` runs; the result is the ordered list of strings
written downstream (`fmt.Fprintf` calls).  The function returns — i.e.
stops reading upstream — on the sentinel, on cancellation, and at end of
input. -/
def processStreamingData (originalModel : String) (cancelled : Nat → Bool) :
    List SSELine → Nat → List String
  | [], _ => []
  | line :: rest, i =>
    if cancelled i then []
    else
      match line with
      | .data .done => ["data: [DONE]\n\n"]
      | .data (.chunk p) =>
          let converted := convertStreamChunk p originalModel
          if converted = "" then processStreamingData originalModel cancelled rest (i + 1)
          else ("data: " ++ converted ++ "\n\n") ::
            processStreamingData originalModel cancelled rest (i + 1)
      | .blank => processStreamingData originalModel cancelled rest (i + 1)
      | .other s => (s ++ "\n") :: processStreamingData originalModel cancelled rest (i + 1)

/-- A well-formed chunk line, as produced upstream: `"data: "` followed by
a payload that decodes to the JSON object `fields`. -/
def chunkLine (fields : List (String × Json)) : SSELine :=
  SSELine.data (.chunk (.wellFormed fields))

/-- The downstream frame the relay writes for a decoded chunk. -/
def rewrittenFrame (originalModel : String) (fields : List (String × Json)) : String :=
  "data: " ++ Json.serialize (.obj (setChunkModel fields originalModel)) ++ "\n\n"

/-- With no cancellation, the output of the relay loop does not depend on
the iteration counter. -/
theorem processStreamingData_noCancel_index (originalModel : String)
    (lines : List SSELine) : ∀ i j : Nat,
    processStreamingData originalModel (fun _ => false) lines i =
      processStreamingData originalModel (fun _ => false) lines j := by
  induction lines with
  | nil => intro i j; rfl
  | cons line rest ih =>
      intro i j
      cases line with
      | data payload =>
          cases payload with
          | done => rfl
          | chunk p =>
              simp only [processStreamingData]
              rw [ih (i + 1) (j + 1)]
      | blank =>
          simp only [processStreamingData]
          exact ih (i + 1) (j + 1)
      | other s =>
          simp only [processStreamingData]
          rw [ih (i + 1) (j + 1)]

/-- The serialization of a JSON object is never the empty string. -/
theorem serialize_obj_ne_empty (fields : List (String × Json)) :
    Json.serialize (.obj fields) ≠ "" := by
  simp only [Json.serialize]
  intro h
  have h1 : ("\x7b" ++ Json.serializeFields fields ++ "\x7d").length = (0 : Nat) := by
    rw [h]; rfl
  simp [String.length_append] at h1
  exact absurd h1.1.1 (by decide)

/-- Helper: the relay on well-formed chunk lines followed by the sentinel
(and an arbitrary unread remainder) emits the rewritten frames in order
and then the sentinel frame. -/
theorem processStreamingData_wellformed (originalModel : String)
    (chunks : List (List (String × Json))) (suffix : List SSELine) :
    processStreamingData originalModel (fun _ => false)
      (chunks.map chunkLine ++ [SSELine.data .done] ++ suffix) 0 =
    chunks.map (rewrittenFrame originalModel) ++ ["data: [DONE]\n\n"] := by
  induction chunks with
  | nil => rfl
  | cons fields rest ih =>
      simp only [List.map_cons, List.cons_append]
      simp [processStreamingData, chunkLine, convertStreamChunk, rewrittenFrame,
        serialize_obj_ne_empty]
      rw [processStreamingData_noCancel_index originalModel _ 1 0]
      simpa [rewrittenFrame] using ih

/-- Helper: rewriting a chunk that has a `model` key leaves that key
mapped to the requested model name. -/
theorem lookup_map_model (m : String) (fields : List (String × Json))
    (h : (fields.lookup "model").isSome) :
    (fields.map (fun kv => if kv.1 = "model" then (kv.1, Json.str m) else kv)).lookup
      "model" = some (Json.str m) := by
  induction fields with
  | nil => simp [List.lookup] at h
  | cons kv rest ih =>
      obtain ⟨k, v⟩ := kv
      by_cases hk : k = "model"
      · subst hk
        simp [List.lookup]
      · have hne : ("model" == k) = false := by
          rw [beq_eq_false_iff_ne]
          exact fun hh => hk hh.symm
        simp only [List.lookup, hne] at h
        have hmap : (((k, v) :: rest).map
            (fun kv => if kv.1 = "model" then (kv.1, Json.str m) else kv)) =
            (k, v) :: rest.map (fun kv => if kv.1 = "model" then (kv.1, Json.str m) else kv) := by
          simp [hk]
        rw [hmap]
        simp only [List.lookup, hne]
        exact ih h

/-- Helper: `setChunkModel` on an object carrying a `model` key produces
an object whose `model` key holds the requested model name. -/
theorem lookup_setChunkModel (m : String) (fields : List (String × Json))
    (h : (fields.lookup "model").isSome) :
    (setChunkModel fields m).lookup "model" = some (Json.str m) := by
  rw [setChunkModel, if_pos h]
  exact lookup_map_model m fields h

/-- C1: for an upstream stream of N well-formed `data:` JSON lines
followed by `data: [DONE]` (and, beyond the sentinel, an arbitrary
unread remainder), the relay with no cancellation writes exactly the N
rewritten frames — each the chunk's JSON object with its `model` field
overwritten by the client's originally requested model name — in input
order, followed by exactly one sentinel frame; the output ignores
everything after the sentinel, i.e. the relay stops reading upstream
there. -/
theorem stream_relay_wellformed_exact (originalModel : String)
    (chunks : List (List (String × Json))) (suffix : List SSELine) :
    (processStreamingData originalModel (fun _ => false)
      (chunks.map chunkLine ++ [SSELine.data .done] ++ suffix) 0 =
    chunks.map (rewrittenFrame originalModel) ++ ["data: [DONE]\n\n"]) ∧
    (∀ fields : List (String × Json), (fields.lookup "model").isSome →
      (setChunkModel fields originalModel).lookup "model" =
        some (Json.str originalModel)) :=
  ⟨processStreamingData_wellformed originalModel chunks suffix,
   fun fields h => lookup_setChunkModel originalModel fields h⟩

/-- Witness for C1 at a concrete input: one chunk carrying a `model` key
followed by the sentinel relays as one rewritten frame — whose `model`
key now holds the requested name — and the sentinel. -/
theorem stream_relay_wellformed_witness :
    (([("model", Json.str "deepseek-chat")] : List (String × Json)).lookup
      "model").isSome ∧
    processStreamingData "gpt-4o" (fun _ => false)
      ([[("model", Json.str "deepseek-chat")]].map chunkLine ++
        [SSELine.data .done] ++ []) 0 =
      [[("model", Json.str "deepseek-chat")]].map (rewrittenFrame "gpt-4o") ++
        ["data: [DONE]\n\n"] ∧
    (setChunkModel [("model", Json.str "deepseek-chat")] "gpt-4o").lookup "model" =
      some (Json.str "gpt-4o") := by
  have h : (([("model", Json.str "deepseek-chat")] : List (String × Json)).lookup
      "model").isSome := rfl
  have main := stream_relay_wellformed_exact "gpt-4o"
    [[("model", Json.str "deepseek-chat")]] []
  exact ⟨h, main.1, main.2 [("model", Json.str "deepseek-chat")] h⟩

/-- C6: with exactly one corrupted `data:` line (payload that fails JSON
decoding) inserted anywhere among well-formed `data:` JSON lines followed
by the sentinel, the relay silently drops the corrupted line and emits
the rewritten frames of every valid line plus one sentinel frame: the
stream is not aborted and no error frame is written. -/
theorem stream_relay_malformed_dropped (originalModel : String)
    (before after : List (List (String × Json))) (raw : String)
    (suffix : List SSELine) :
    processStreamingData originalModel (fun _ => false)
      (before.map chunkLine ++ [SSELine.data (.chunk (.malformed raw))] ++
        after.map chunkLine ++ [SSELine.data .done] ++ suffix) 0 =
    before.map (rewrittenFrame originalModel) ++
      after.map (rewrittenFrame originalModel) ++ ["data: [DONE]\n\n"] := by
  induction before with
  | nil =>
      simp only [List.map_nil, List.nil_append, processStreamingData, convertStreamChunk]
      rw [processStreamingData_noCancel_index originalModel _ 1 0]
      simpa using processStreamingData_wellformed originalModel after suffix
  | cons fields rest ih =>
      simp only [List.map_cons, List.cons_append]
      simp [processStreamingData, chunkLine, convertStreamChunk, rewrittenFrame,
        serialize_obj_ne_empty]
      rw [processStreamingData_noCancel_index originalModel _ 1 0]
      simpa [rewrittenFrame] using ih

/-!  ## Cancellation (handlers.go:447-483 and 495-499)

`handleStreamingResponse` derives a context from the client request
(`context.WithCancel(r.Context())`), hands it to `processStreamingData`,
and closes the upstream response body on return (`defer resp.Body.Close()`),
so the upstream connection is closed on every exit path of the relay. -/

/-- The observable outcome of `handleStreamingResponse`
(handlers.go:447-483) once the upstream stream is open: the bytes written
downstream and whether the upstream body was closed (the deferred
`resp.Body.Close()` runs on every return path, so this is always true). -/
structure StreamSessionResult where
  written : List String
  upstreamClosed : Bool

/-- `handleStreamingResponse` (handlers.go:447-483), restricted to the
relay phase: runs `processStreamingData` and closes the upstream body. -/
def handleStreamingResponse (originalModel : String) (cancelled : Nat → Bool)
    (upstream : List SSELine) : StreamSessionResult :=
  { written := processStreamingData originalModel cancelled upstream 0
    upstreamClosed := true }

/-- Helper: if the cancellation signal holds from iteration `k` onwards,
the relay's output only depends on the lines consumed before iteration
`k`. -/
theorem processStreamingData_cancelled_take (originalModel : String)
    (cancelled : Nat → Bool) (k : Nat)
    (h : ∀ j, k ≤ j → cancelled j = true) :
    ∀ (lines : List SSELine) (i : Nat),
    processStreamingData originalModel cancelled lines i =
      processStreamingData originalModel cancelled (lines.take (k - i)) i := by
  intro lines
  induction lines with
  | nil => intro i; simp
  | cons line rest ih =>
      intro i
      by_cases hc : cancelled i = true
      · rcases Nat.eq_zero_or_pos (k - i) with hz | hp
        · rw [hz]
          simp [processStreamingData, hc]
        · obtain ⟨n, hn⟩ : ∃ n, k - i = n + 1 :=
            ⟨k - i - 1, by omega⟩
          rw [hn]
          simp [processStreamingData, hc]
      · have hik : i < k := by
          by_contra hik
          exact hc (h i (by omega))
        obtain ⟨n, hn⟩ : ∃ n, k - i = n + 1 := ⟨k - i - 1, by omega⟩
        have hn' : k - (i + 1) = n := by omega
        rw [hn]
        simp only [List.take_succ_cons]
        cases line with
        | data payload =>
            cases payload with
            | done => rfl
            | chunk p =>
                simp only [processStreamingData, hc, Bool.false_eq_true, if_false]
                rw [← hn', ih (i + 1)]
        | blank =>
            simp only [processStreamingData, hc, Bool.false_eq_true, if_false]
            rw [← hn', ih (i + 1)]
        | other s =>
            simp only [processStreamingData, hc, Bool.false_eq_true, if_false]
            rw [← hn', ih (i + 1)]

/-- C7: the relay polls the cancellation signal at the start of every
line iteration (an iteration that starts cancelled writes nothing and
returns), and for a monotone cancellation signal that is set by
iteration `k`, the whole session writes only what the first `k`
iterations write — no line after the `k`-th contributes any downstream
write — and the upstream connection is closed. -/
theorem stream_relay_cancellation (originalModel : String)
    (cancelled : Nat → Bool) (upstream : List SSELine) (k : Nat)
    (hmono : ∀ i j, i ≤ j → cancelled i = true → cancelled j = true)
    (hk : cancelled k = true) :
    (∀ (lines : List SSELine) (i : Nat), cancelled i = true →
        processStreamingData originalModel cancelled lines i = []) ∧
    (handleStreamingResponse originalModel cancelled upstream).written =
      processStreamingData originalModel cancelled (upstream.take k) 0 ∧
    (handleStreamingResponse originalModel cancelled upstream).upstreamClosed = true := by
  refine ⟨?_, ?_, rfl⟩
  · intro lines i hi
    cases lines with
    | nil => rfl
    | cons line rest => simp [processStreamingData, hi]
  · have h : ∀ j, k ≤ j → cancelled j = true := fun j hj => hmono k j hj hk
    have := processStreamingData_cancelled_take originalModel cancelled k h upstream 0
    simpa [handleStreamingResponse] using this

/-- A small concrete upstream stream used to witness the cancellation
theorem: three chunk lines and the sentinel. -/
def demoUpstream : List SSELine :=
  [chunkLine [("model", Json.str "deepseek-reasoner")],
   chunkLine [("a", Json.num 1)],
   chunkLine [("b", Json.num 2)],
   SSELine.data .done]

/-- Witness for C7 at a concrete input: the signal `2 ≤ n` is monotone and
set at iteration 2, and the session on `demoUpstream` writes exactly what
the first two iterations write, with the upstream body closed. -/
theorem stream_relay_cancellation_witness :
    (∀ i j, i ≤ j → (fun n => decide (2 ≤ n)) i = true →
        (fun n => decide (2 ≤ n)) j = true) ∧
    (fun n => decide (2 ≤ n)) 2 = true ∧
    (handleStreamingResponse "gpt-4o" (fun n => decide (2 ≤ n)) demoUpstream).written =
      processStreamingData "gpt-4o" (fun n => decide (2 ≤ n)) (demoUpstream.take 2) 0 ∧
    (handleStreamingResponse "gpt-4o" (fun n => decide (2 ≤ n)) demoUpstream).upstreamClosed
      = true := by
  have hmono : ∀ i j, i ≤ j → (fun n => decide (2 ≤ n)) i = true →
      (fun n => decide (2 ≤ n)) j = true := by
    intro i j hij hi
    simp only [decide_eq_true_eq] at hi ⊢
    omega
  have hk : (fun n => decide (2 ≤ n)) 2 = true := by decide
  have main := stream_relay_cancellation "gpt-4o" (fun n => decide (2 ≤ n))
    demoUpstream 2 hmono hk
  exact ⟨hmono, hk, main.2.1, main.2.2⟩

/-!  ## Request data model (test_reasoner.go:249-364, first revision)

The Go structs are embedded field for field.  `json:"...,omitempty"`
struct tags matter for the wire format and are modelled separately by
`DeepSeekRequest.wireKeys`.  Go's `Function` type is named `FunctionSpec`
here because `Function` is a reserved namespace of the Lean library. -/

/-- The inner function of a `ToolCall` (test_reasoner.go:289-292). -/
structure ToolCallFunction where
  name : String
  arguments : String
deriving DecidableEq

/-- `ToolCall` (test_reasoner.go:286-293). -/
structure ToolCall where
  id : String
  type : String
  function : ToolCallFunction
deriving DecidableEq

/-- `Function` (test_reasoner.go:279-283): a tool's function definition;
`parameters` is an opaque JSON schema. -/
structure FunctionSpec where
  name : String
  description : String
  parameters : Json

/-- `Tool` (test_reasoner.go:273-276). -/
structure Tool where
  type : String
  function : FunctionSpec

/-- `Message` (test_reasoner.go:262-269).  Go zero values stand in for
absent optional fields, exactly as in the struct. -/
structure Message where
  role : String
  content : String
  reasoningContent : String := ""
  toolCalls : List ToolCall := []
  toolCallID : String := ""
  name : String := ""

/-- `ChatRequest` (test_reasoner.go:249-258): the front-schema request.
Pointer-typed optional fields (`*float64`, `*int`) are `Option`;
`tool_choice`'s `interface\x7b\x7d` is an optional decoded JSON value
(`none` = JSON null / absent). -/
structure ChatRequest where
  model : String
  messages : List Message := []
  stream : Bool := false
  temperature : Option Rat := none
  maxTokens : Option Int := none
  tools : List Tool := []
  toolChoice : Option Json := none
  functions : List FunctionSpec := []

/-- `DeepSeekRequest` (test_reasoner.go:297-305): the back-schema request.
All optional fields are plain (non-pointer) Go values whose zero value is
the default; their `omitempty` tags are modelled by
`DeepSeekRequest.wireKeys`. -/
structure DeepSeekRequest where
  model : String
  messages : List Message
  stream : Bool
  temperature : Rat := 0
  maxTokens : Int := 0
  tools : List Tool := []
  toolChoice : String := ""

/-- The set of JSON keys present in `json.Marshal` of a `DeepSeekRequest`,
per the struct tags of test_reasoner.go:297-305: `model`, `messages` and
`stream` are always emitted; `temperature`, `max_tokens`, `tools` and
`tool_choice` carry `omitempty` and are dropped at their Go zero values
(0, 0, nil slice, empty string). -/
def DeepSeekRequest.wireKeys (r : DeepSeekRequest) : List String :=
  ["model", "messages", "stream"] ++
  (if r.temperature = 0 then [] else ["temperature"]) ++
  (if r.maxTokens = 0 then [] else ["max_tokens"]) ++
  (if r.tools.isEmpty then [] else ["tools"]) ++
  (if r.toolChoice = "" then [] else ["tool_choice"])

/-- `convertToolChoice` (utils.go:146-173): the tri-state tool-choice
classifier.  `nil` yields `"auto"`; the strings `"auto"` and `"none"`
pass through; any other string yields `"auto"`; an object is inspected
for a `"type"` field equal to `"function"` and yields `"auto"` either
way; anything else yields `"auto"`. -/
def convertToolChoice : Option Json → String
  | none => "auto"
  | some (Json.str s) => if s = "auto" ∨ s = "none" then s else "auto"
  | some (Json.obj fields) =>
      match fields.lookup "type" with
      | some (Json.str t) => if t = "function" then "auto" else "auto"
      | _ => "auto"
  | some _ => "auto"

/-- `convertMessagesFormat` (utils.go:93-142): field-by-field copy of each
message; the legacy role `"function"` becomes `"tool"`; tool calls are
deep-copied with their `type` forced to `"function"`; the
`ReasoningContent` field is not copied (it stays at its zero value). -/
def convertMessagesFormat (messages : List Message) : List Message :=
  messages.map (fun msg =>
    { role := if msg.role = "function" then "tool" else msg.role
      content := msg.content
      reasoningContent := ""
      toolCalls := msg.toolCalls.map (fun tc =>
        { id := tc.id
          type := "function"
          function := { name := tc.function.name, arguments := tc.function.arguments } })
      toolCallID := msg.toolCallID
      name := msg.name })

/-- The model-mapping table of `mapNewModelsToDeepSeek`
(handlers.go:214-232). -/
def newModelMapping : List (String × String) :=
  [("o3", "deepseek-reasoner"),
   ("o3-preview", "deepseek-reasoner"),
   ("o3-mini", "deepseek-reasoner"),
   ("o4-mini", "deepseek-reasoner"),
   ("gpt-4o", "deepseek-reasoner"),
   ("gpt-4", "deepseek-chat"),
   ("gpt-3.5-turbo", "deepseek-chat"),
   ("deepseek-chat", "deepseek-chat"),
   ("deepseek-coder", "deepseek-coder"),
   ("deepseek-reasoner", "deepseek-reasoner")]

/-- `mapNewModelsToDeepSeek` (handlers.go:212-242): table lookup with the
hard-coded fallback `"deepseek-reasoner"` for unknown models. -/
def mapNewModelsToDeepSeek (requestedModel : String) : String :=
  match newModelMapping.lookup requestedModel with
  | some mapped => mapped
  | none => "deepseek-reasoner"

/-- `convertToDeepSeekRequest` (handlers.go:249-314, first revision): map
the model name, convert the messages, copy `stream`; for non-reasoning
models set `temperature` from the client (default 0.7), for the reasoning
model leave it at the zero value; copy `max_tokens` when supplied; copy
tools (or synthesize them from legacy functions) and classify
`tool_choice`.  The Go function's error result is always `nil`, modelled
by the second component being `none`. -/
def convertToDeepSeekRequest (openaiReq : ChatRequest) :
    DeepSeekRequest × Option String :=
  let deepseekModel := mapNewModelsToDeepSeek openaiReq.model
  let isReasoningModel := deepseekModel = "deepseek-reasoner"
  let base : DeepSeekRequest :=
    { model := deepseekModel
      messages := convertMessagesFormat openaiReq.messages
      stream := openaiReq.stream }
  let withTemp :=
    if isReasoningModel then base
    else
      match openaiReq.temperature with
      | some t => { base with temperature := t }
      | none => { base with temperature := (7 : Rat) / 10 }
  let withMax :=
    match openaiReq.maxTokens with
    | some n => { withTemp with maxTokens := n }
    | none => withTemp
  let result :=
    if openaiReq.tools.isEmpty then
      if openaiReq.functions.isEmpty then withMax
      else
        { withMax with
          tools := openaiReq.functions.map (fun fn => { type := "function", function := fn })
          toolChoice := convertToolChoice openaiReq.toolChoice }
    else
      { withMax with
        tools := openaiReq.tools
        toolChoice := convertToolChoice openaiReq.toolChoice }
  (result, none)

/-- Helper: the temperature field of the produced back request. -/
theorem convert_result_temperature (req : ChatRequest) :
    (convertToDeepSeekRequest req).1.temperature =
      if mapNewModelsToDeepSeek req.model = "deepseek-reasoner" then 0
      else req.temperature.getD ((7 : Rat) / 10) := by
  rcases req with ⟨model, messages, stream, temperature, maxTokens, tools, toolChoice, functions⟩
  by_cases hr : mapNewModelsToDeepSeek model = "deepseek-reasoner" <;>
    cases temperature <;> cases maxTokens <;> cases tools <;> cases functions <;>
      simp [convertToDeepSeekRequest, hr]

/-- Helper: the max-tokens field of the produced back request. -/
theorem convert_result_maxTokens (req : ChatRequest) :
    (convertToDeepSeekRequest req).1.maxTokens = (req.maxTokens.getD 0) := by
  rcases req with ⟨model, messages, stream, temperature, maxTokens, tools, toolChoice, functions⟩
  by_cases hr : mapNewModelsToDeepSeek model = "deepseek-reasoner" <;>
    cases temperature <;> cases maxTokens <;> cases tools <;> cases functions <;>
      simp [convertToDeepSeekRequest, hr]

/-- Helper: the model field of the produced back request. -/
theorem convert_result_model (req : ChatRequest) :
    (convertToDeepSeekRequest req).1.model = mapNewModelsToDeepSeek req.model := by
  rcases req with ⟨model, messages, stream, temperature, maxTokens, tools, toolChoice, functions⟩
  by_cases hr : mapNewModelsToDeepSeek model = "deepseek-reasoner" <;>
    cases temperature <;> cases maxTokens <;> cases tools <;> cases functions <;>
      simp [convertToDeepSeekRequest, hr]

/-- Helper: a back request whose temperature is the zero value serializes
without a `temperature` key. -/
theorem temperature_not_in_wireKeys (r : DeepSeekRequest) (h : r.temperature = 0) :
    "temperature" ∉ r.wireKeys := by
  simp only [DeepSeekRequest.wireKeys, h, if_pos rfl]
  split_ifs <;> simp_all

/-- Helper: a back request whose max-tokens is the zero value serializes
without a `max_tokens` key. -/
theorem maxTokens_not_in_wireKeys (r : DeepSeekRequest) (h : r.maxTokens = 0) :
    "max_tokens" ∉ r.wireKeys := by
  simp only [DeepSeekRequest.wireKeys, h, if_pos rfl]
  split_ifs <;> simp_all

/-- Helper: when the client sent a non-empty tools list, it is copied and
the tool choice classified. -/
theorem convert_result_tools_nonempty (req : ChatRequest) (h : req.tools ≠ []) :
    (convertToDeepSeekRequest req).1.tools = req.tools ∧
    (convertToDeepSeekRequest req).1.toolChoice = convertToolChoice req.toolChoice := by
  rcases req with ⟨model, messages, stream, temperature, maxTokens, tools, toolChoice, functions⟩
  cases tools with
  | nil => simp at h
  | cons t ts =>
      by_cases hr : mapNewModelsToDeepSeek model = "deepseek-reasoner" <;>
        cases temperature <;> cases maxTokens <;> cases functions <;>
          simp [convertToDeepSeekRequest, hr]

/-- Helper: with no tools but legacy functions, one tool per function is
synthesized in order and the tool choice classified. -/
theorem convert_result_functions (req : ChatRequest) (h0 : req.tools = [])
    (h : req.functions ≠ []) :
    (convertToDeepSeekRequest req).1.tools =
      req.functions.map (fun fn => { type := "function", function := fn }) ∧
    (convertToDeepSeekRequest req).1.toolChoice = convertToolChoice req.toolChoice := by
  rcases req with ⟨model, messages, stream, temperature, maxTokens, tools, toolChoice, functions⟩
  subst h0
  cases functions with
  | nil => simp at h
  | cons f fs =>
      by_cases hr : mapNewModelsToDeepSeek model = "deepseek-reasoner" <;>
        cases temperature <;> cases maxTokens <;>
          simp [convertToDeepSeekRequest, hr]

/-- C2: when the front model maps to the reasoning backend model
(`deepseek-reasoner`, the model flagged ignores-sampling-params), the
serialized back request has no `temperature` key at all, whatever the
client supplied; for every other backend model the back request's
temperature is the client's value when present and 0.7 otherwise. -/
theorem temperature_policy (req : ChatRequest) :
    (mapNewModelsToDeepSeek req.model = "deepseek-reasoner" →
      "temperature" ∉ (convertToDeepSeekRequest req).1.wireKeys) ∧
    (mapNewModelsToDeepSeek req.model ≠ "deepseek-reasoner" →
      (convertToDeepSeekRequest req).1.temperature =
        req.temperature.getD ((7 : Rat) / 10)) := by
  constructor
  · intro h
    apply temperature_not_in_wireKeys
    rw [convert_result_temperature, if_pos h]
  · intro h
    rw [convert_result_temperature, if_neg h]

/-- A reasoning-model request with an out-of-range temperature, used as a
concrete witness input. -/
def reqReasonerDemo : ChatRequest :=
  { model := "o3"
    messages := [{ role := "user", content := "hi" }]
    temperature := some (-(1 : Rat)) }

/-- A chat-model request with temperature 1.5, used as a concrete witness
input. -/
def reqChatDemo : ChatRequest :=
  { model := "gpt-4", temperature := some ((3 : Rat) / 2) }

/-- Witness for C2 at concrete inputs: `o3` maps to the reasoning model
and its request serializes without a temperature key even though the
client sent −1; `gpt-4` maps elsewhere and its request carries the
client's 1.5. -/
theorem temperature_policy_witness :
    (mapNewModelsToDeepSeek reqReasonerDemo.model = "deepseek-reasoner" ∧
      "temperature" ∉ (convertToDeepSeekRequest reqReasonerDemo).1.wireKeys) ∧
    (mapNewModelsToDeepSeek reqChatDemo.model ≠ "deepseek-reasoner" ∧
      (convertToDeepSeekRequest reqChatDemo).1.temperature = 3 / 2) := by
  have h1 : mapNewModelsToDeepSeek reqReasonerDemo.model = "deepseek-reasoner" := by decide
  have h2 : mapNewModelsToDeepSeek reqChatDemo.model ≠ "deepseek-reasoner" := by decide
  refine ⟨⟨h1, (temperature_policy reqReasonerDemo).1 h1⟩, h2, ?_⟩
  rw [(temperature_policy reqChatDemo).2 h2]
  rfl

/-- C4: request translation is total — the error result is always `nil`;
an unknown model falls back to the default backend model
`deepseek-reasoner`; an unrecognized `tool_choice` string degrades to
`"auto"` instead of failing. -/
theorem request_translation_total (req : ChatRequest) :
    (convertToDeepSeekRequest req).2 = none ∧
    (newModelMapping.lookup req.model = none →
      (convertToDeepSeekRequest req).1.model = "deepseek-reasoner") ∧
    (∀ s : String, s ≠ "auto" → s ≠ "none" →
      convertToolChoice (some (Json.str s)) = "auto") := by
  refine ⟨rfl, ?_, ?_⟩
  · intro h
    rw [convert_result_model, mapNewModelsToDeepSeek, h]
  · intro s h1 h2
    simp [convertToolChoice, h1, h2]

/-- A request naming a model absent from the mapping table, used as a
concrete witness input. -/
def reqUnknownDemo : ChatRequest := { model := "totally-new-model" }

/-- Witness for C4 at a concrete input: an unmapped model yields a nil
error and the default backend model, and the unrecognized tool-choice
string `"required"` becomes `"auto"`. -/
theorem request_translation_total_witness :
    newModelMapping.lookup reqUnknownDemo.model = none ∧
    (convertToDeepSeekRequest reqUnknownDemo).2 = none ∧
    (convertToDeepSeekRequest reqUnknownDemo).1.model = "deepseek-reasoner" ∧
    convertToolChoice (some (Json.str "required")) = "auto" := by
  have h1 : newModelMapping.lookup reqUnknownDemo.model = none := by decide
  have main := request_translation_total reqUnknownDemo
  exact ⟨h1, main.1, main.2.1 h1, main.2.2 "required" (by decide) (by decide)⟩

/-- C5: with non-empty tools they are copied through and `tool_choice` is
classified by the tri-state classifier; with empty tools but legacy
functions, one `"function"`-kind tool per legacy function is synthesized
in order before the same classification; the classifier maps `nil` to
`"auto"`, passes `"auto"`/`"none"` through, and maps every other string
and every object whose `type` field is `"function"` to `"auto"`. -/
theorem tool_normalization (req : ChatRequest) :
    (req.tools ≠ [] →
      (convertToDeepSeekRequest req).1.tools = req.tools ∧
      (convertToDeepSeekRequest req).1.toolChoice = convertToolChoice req.toolChoice) ∧
    (req.tools = [] → req.functions ≠ [] →
      (convertToDeepSeekRequest req).1.tools =
        req.functions.map (fun fn => { type := "function", function := fn }) ∧
      (convertToDeepSeekRequest req).1.toolChoice = convertToolChoice req.toolChoice) ∧
    convertToolChoice none = "auto" ∧
    convertToolChoice (some (Json.str "auto")) = "auto" ∧
    convertToolChoice (some (Json.str "none")) = "none" ∧
    (∀ s : String, s ≠ "auto" → s ≠ "none" →
      convertToolChoice (some (Json.str s)) = "auto") ∧
    (∀ fields : List (String × Json),
      fields.lookup "type" = some (Json.str "function") →
      convertToolChoice (some (Json.obj fields)) = "auto") := by
  refine ⟨convert_result_tools_nonempty req, convert_result_functions req, rfl, rfl, rfl,
    ?_, ?_⟩
  · intro s h1 h2
    simp [convertToolChoice, h1, h2]
  · intro fields h
    simp [convertToolChoice, h]

/-- A function spec used by the witness inputs. -/
def demoFunction : FunctionSpec :=
  { name := "f", description := "d", parameters := Json.null }

/-- A request with one tool and an unpinnable object tool choice, used as
a concrete witness input. -/
def reqToolsDemo : ChatRequest :=
  { model := "deepseek-chat"
    tools := [{ type := "function", function := demoFunction }]
    toolChoice := some (Json.obj [("type", Json.str "function")]) }

/-- A request with no tools and one legacy function, used as a concrete
witness input. -/
def reqFunctionsDemo : ChatRequest :=
  { model := "deepseek-chat", functions := [demoFunction] }

/-- Witness for C5 at concrete inputs: the tool of `reqToolsDemo` is
copied through with its pinning object tool choice downgraded to
`"auto"`, and the legacy function of `reqFunctionsDemo` is wrapped into a
`"function"`-kind tool. -/
theorem tool_normalization_witness :
    (reqToolsDemo.tools ≠ [] ∧
      (convertToDeepSeekRequest reqToolsDemo).1.tools = reqToolsDemo.tools ∧
      (convertToDeepSeekRequest reqToolsDemo).1.toolChoice = "auto") ∧
    (reqFunctionsDemo.tools = [] ∧ reqFunctionsDemo.functions ≠ [] ∧
      (convertToDeepSeekRequest reqFunctionsDemo).1.tools =
        reqFunctionsDemo.functions.map (fun fn => { type := "function", function := fn }) ∧
      (convertToDeepSeekRequest reqFunctionsDemo).1.toolChoice = "auto") := by
  have h1 : reqToolsDemo.tools ≠ [] := List.cons_ne_nil _ _
  have h2 : reqFunctionsDemo.functions ≠ [] := List.cons_ne_nil _ _
  have m1 := (tool_normalization reqToolsDemo).1 h1
  have m2 := (tool_normalization reqFunctionsDemo).2.1 rfl h2
  refine ⟨⟨h1, m1.1, ?_⟩, rfl, h2, m2.1, ?_⟩
  · rw [m1.2]; rfl
  · rw [m2.2]; rfl

/-- C10: for a model that accepts sampling parameters, a client-supplied
temperature of exactly 0 leaves the `temperature` field at Go's zero
value, which `omitempty` then drops from the serialized request; a
client-supplied `max_tokens` of 0 is likewise dropped. -/
theorem zero_sampling_dropped (req : ChatRequest) :
    (mapNewModelsToDeepSeek req.model ≠ "deepseek-reasoner" →
      req.temperature = some 0 →
      "temperature" ∉ (convertToDeepSeekRequest req).1.wireKeys) ∧
    (req.maxTokens = some 0 →
      "max_tokens" ∉ (convertToDeepSeekRequest req).1.wireKeys) := by
  constructor
  · intro h ht
    apply temperature_not_in_wireKeys
    rw [convert_result_temperature, if_neg h, ht]
    rfl
  · intro hm
    apply maxTokens_not_in_wireKeys
    rw [convert_result_maxTokens, hm]
    rfl

/-- A chat-model request with explicit zero temperature and zero
max-tokens, used as a concrete witness input. -/
def reqZeroDemo : ChatRequest :=
  { model := "gpt-4", temperature := some 0, maxTokens := some 0 }

/-- Witness for C10 at a concrete input: `gpt-4` maps to a sampling model,
yet explicit zeros vanish from the wire. -/
theorem zero_sampling_dropped_witness :
    mapNewModelsToDeepSeek reqZeroDemo.model ≠ "deepseek-reasoner" ∧
    reqZeroDemo.temperature = some 0 ∧
    reqZeroDemo.maxTokens = some 0 ∧
    "temperature" ∉ (convertToDeepSeekRequest reqZeroDemo).1.wireKeys ∧
    "max_tokens" ∉ (convertToDeepSeekRequest reqZeroDemo).1.wireKeys := by
  have h1 : mapNewModelsToDeepSeek reqZeroDemo.model ≠ "deepseek-reasoner" := by decide
  have main := zero_sampling_dropped reqZeroDemo
  exact ⟨h1, rfl, rfl, main.1 h1 rfl, main.2 rfl⟩

/-!  ## Response data model and response translator

`DeepSeekResponse` embeds test_reasoner.go:308-323.  The translator
`convertToOpenAIResponse` embeds the separate-field ("Policy A") revision
at src/unnamed/part_000:1022-1082; the Cursor revision at
handlers.go:19-63, which merges the reasoning trace into the content,
is embedded as `convertToOpenAIResponseCursor`.  The Go functions build
`map[string]interface\x7b\x7d` values; keys that are conditionally added
to the message map are modelled as `Option` fields (`none` = key
absent). -/

/-- `Usage` of `DeepSeekResponse` (test_reasoner.go:318-322). -/
structure Usage where
  promptTokens : Int
  completionTokens : Int
  totalTokens : Int
deriving DecidableEq

/-- One choice of `DeepSeekResponse` (test_reasoner.go:313-317). -/
structure DeepSeekChoice where
  index : Int
  message : Message
  finishReason : String

/-- `DeepSeekResponse` (test_reasoner.go:308-323). -/
structure DeepSeekResponse where
  id : String
  object : String
  created : Int
  model : String
  choices : List DeepSeekChoice
  usage : Usage

/-- The message map built by the response translator; `Option` fields are
keys that are only added conditionally. -/
structure OutMessage where
  role : String
  content : String
  reasoningContent : Option String := none
  toolCalls : Option (List ToolCall) := none
  name : Option String := none
  toolCallID : Option String := none

/-- One processed choice map of the front response. -/
structure OpenAIChoice where
  index : Int
  finishReason : String
  message : OutMessage

/-- The front-schema response map built by the response translator. -/
structure OpenAIResponse where
  id : String
  object : String
  created : Int
  model : String
  choices : List OpenAIChoice
  usage : Usage

/-- The requested-model names the separate-field translator treats as
reasoning models (the `isReasoningModel` disjunction at
src/unnamed/part_000:1027-1028). -/
def reasonerFrontNames : List String :=
  ["o3", "o3-preview", "o3-mini", "o4-mini", "deepseek-reasoner"]

/-- `convertToOpenAIResponse` (src/unnamed/part_000:1022-1082), the
separate-field revision: every choice's message is rebuilt field by
field; `reasoning_content` is added exactly when the requested model is
one of `reasonerFrontNames` and the trace is non-empty; `tool_calls`,
`name` and `tool_call_id` are added when non-zero; `model` is forced to
the requested model. -/
def convertToOpenAIResponse (deepseekResp : DeepSeekResponse)
    (originalModel : String) : OpenAIResponse :=
  let isReasoningModel := originalModel ∈ reasonerFrontNames
  { id := deepseekResp.id
    object := "chat.completion"
    created := deepseekResp.created
    model := originalModel
    choices := deepseekResp.choices.map (fun choice =>
      { index := choice.index
        finishReason := choice.finishReason
        message :=
          { role := choice.message.role
            content := choice.message.content
            reasoningContent :=
              if isReasoningModel ∧ choice.message.reasoningContent ≠ "" then
                some choice.message.reasoningContent
              else none
            toolCalls :=
              if choice.message.toolCalls ≠ [] then some choice.message.toolCalls
              else none
            name := if choice.message.name ≠ "" then some choice.message.name else none
            toolCallID :=
              if choice.message.toolCallID ≠ "" then some choice.message.toolCallID
              else none } })
    usage := deepseekResp.usage }

/-- `convertToOpenAIResponse` of the Cursor revision (handlers.go:19-63):
a non-empty reasoning trace is prepended to the content, separated by a
blank line, instead of being a separate field. -/
def convertToOpenAIResponseCursor (deepseekResp : DeepSeekResponse)
    (originalModel : String) : OpenAIResponse :=
  { id := deepseekResp.id
    object := "chat.completion"
    created := deepseekResp.created
    model := originalModel
    choices := deepseekResp.choices.map (fun choice =>
      { index := choice.index
        finishReason := choice.finishReason
        message :=
          { role := choice.message.role
            content :=
              if choice.message.reasoningContent ≠ "" then
                choice.message.reasoningContent ++ "\n\n" ++ choice.message.content
              else choice.message.content
            toolCalls :=
              if choice.message.toolCalls ≠ [] then some choice.message.toolCalls
              else none } })
    usage := deepseekResp.usage }

/-- C3: both revisions of the response translator force the output model
to the requested model — whatever the backend response's own model says —
and copy `id`, `created` and `usage` through verbatim. -/
theorem response_model_passthrough (deepseekResp : DeepSeekResponse)
    (requestedModel : String) :
    (convertToOpenAIResponse deepseekResp requestedModel).model = requestedModel ∧
    (convertToOpenAIResponse deepseekResp requestedModel).id = deepseekResp.id ∧
    (convertToOpenAIResponse deepseekResp requestedModel).created = deepseekResp.created ∧
    (convertToOpenAIResponse deepseekResp requestedModel).usage = deepseekResp.usage ∧
    (convertToOpenAIResponseCursor deepseekResp requestedModel).model = requestedModel ∧
    (convertToOpenAIResponseCursor deepseekResp requestedModel).id = deepseekResp.id ∧
    (convertToOpenAIResponseCursor deepseekResp requestedModel).created
      = deepseekResp.created ∧
    (convertToOpenAIResponseCursor deepseekResp requestedModel).usage
      = deepseekResp.usage :=
  ⟨rfl, rfl, rfl, rfl, rfl, rfl, rfl, rfl⟩

/-- A backend response with a non-empty reasoning trace, used for the
reasoning-policy counterexample and witnesses. -/
def respWithTrace : DeepSeekResponse :=
  { id := "id1"
    object := "chat.completion"
    created := 1
    model := "deepseek-reasoner"
    choices := [{ index := 0
                  message := { role := "assistant"
                               content := "ans"
                               reasoningContent := "thinking" }
                  finishReason := "stop" }]
    usage := { promptTokens := 1, completionTokens := 2, totalTokens := 3 } }

/-- Counterexample to C8 as stated: the request `gpt-4o` maps to the
reasoning-capable backend model `deepseek-reasoner`, the backend choice
carries a non-empty reasoning trace, yet the separate-field translator
omits `reasoning_content`, because its check is on the requested front
name — `gpt-4o` is not in its hard-coded list — not on the mapped
backend model class. -/
theorem reasoning_field_policy_counterexample :
    mapNewModelsToDeepSeek "gpt-4o" = "deepseek-reasoner" ∧
    respWithTrace.choices.map (fun c => c.message.reasoningContent) = ["thinking"] ∧
    (convertToOpenAIResponse respWithTrace "gpt-4o").choices.map
      (fun c => c.message.reasoningContent) = [none] := by
  refine ⟨by decide, rfl, ?_⟩
  simp [convertToOpenAIResponse, respWithTrace, reasonerFrontNames]

/-- C8 (amended): the separate-field translator attaches the reasoning
trace as `reasoning_content` exactly when the requested front model name
is in its hard-coded reasoning list (`o3`, `o3-preview`, `o3-mini`,
`o4-mini`, `deepseek-reasoner`) and the trace is non-empty; for any
other requested name, or an empty trace, the field is omitted. -/
theorem reasoning_field_policy (deepseekResp : DeepSeekResponse)
    (requestedModel : String) :
    (requestedModel ∈ reasonerFrontNames →
      (convertToOpenAIResponse deepseekResp requestedModel).choices.map
          (fun c => c.message.reasoningContent) =
        deepseekResp.choices.map (fun c =>
          if c.message.reasoningContent = "" then none
          else some c.message.reasoningContent)) ∧
    (requestedModel ∉ reasonerFrontNames →
      (convertToOpenAIResponse deepseekResp requestedModel).choices.map
          (fun c => c.message.reasoningContent) =
        deepseekResp.choices.map (fun _ => none)) := by
  constructor
  · intro h
    simp only [convertToOpenAIResponse, List.map_map]
    apply List.map_congr_left
    intro c _
    by_cases hc : c.message.reasoningContent = "" <;> simp [h, hc]
  · intro h
    simp only [convertToOpenAIResponse, List.map_map]
    apply List.map_congr_left
    intro c _
    simp [h]

/-- Witness for the amended C8 at concrete inputs: requesting
`deepseek-reasoner` surfaces the trace of `respWithTrace`, requesting
`gpt-4` omits it. -/
theorem reasoning_field_policy_witness :
    ("deepseek-reasoner" ∈ reasonerFrontNames ∧
      (convertToOpenAIResponse respWithTrace "deepseek-reasoner").choices.map
        (fun c => c.message.reasoningContent) = [some "thinking"]) ∧
    ("gpt-4" ∉ reasonerFrontNames ∧
      (convertToOpenAIResponse respWithTrace "gpt-4").choices.map
        (fun c => c.message.reasoningContent) = [none]) := by
  have h1 : "deepseek-reasoner" ∈ reasonerFrontNames := by decide
  have h2 : "gpt-4" ∉ reasonerFrontNames := by decide
  refine ⟨⟨h1, ?_⟩, h2, ?_⟩
  · rw [(reasoning_field_policy respWithTrace "deepseek-reasoner").1 h1]
    rfl
  · rw [(reasoning_field_policy respWithTrace "gpt-4").2 h2]
    rfl

/-!  ## Backend transport (handlers.go:344-443, first revision)

The HTTP exchange itself is Go standard-library code; what the repository
contributes is the handling of its outcome.  `UpstreamOutcome` is the
result of `client.Do` plus, for the synchronous path, the result of
decoding the body as a `DeepSeekResponse` (the stdlib JSON decoder,
abstracted as an `Option`).  Each transport function consumes exactly one
outcome: no retry exists in the source. -/

/-- The errors the transport functions can return (the `fmt.Errorf` sites
of handlers.go:344-443): a failed send, a non-OK status carrying the
status code and the full response body, or a body-decode failure. -/
inductive DeepSeekError where
  | sendFailed (msg : String) : DeepSeekError
  | apiError (status : Nat) (body : String) : DeepSeekError
  | decodeFailed : DeepSeekError

/-- The outcome of the single HTTP exchange performed by a transport
call. -/
inductive UpstreamOutcome where
  | netError (msg : String) : UpstreamOutcome
  | httpResponse (status : Nat) (body : String)
      (decoded : Option DeepSeekResponse) : UpstreamOutcome

/-- `sendRequestToDeepSeek` (handlers.go:344-398): a failed send is an
error; a response with status other than `http.StatusOK` (200) is
returned as an error carrying the status and the body; a 200 response is
decoded, a decode failure being its own error. -/
def sendRequestToDeepSeek : UpstreamOutcome → Except DeepSeekError DeepSeekResponse
  | .netError msg => .error (.sendFailed msg)
  | .httpResponse status body decoded =>
      if status ≠ 200 then .error (.apiError status body)
      else
        match decoded with
        | none => .error .decodeFailed
        | some resp => .ok resp

/-- `sendStreamingRequestToDeepSeek` (handlers.go:402-443): same status
policy; on 200 the response body is handed back unconsumed as the live
stream. -/
def sendStreamingRequestToDeepSeek : UpstreamOutcome → Except DeepSeekError String
  | .netError msg => .error (.sendFailed msg)
  | .httpResponse status body _ =>
      if status ≠ 200 then .error (.apiError status body)
      else .ok body

/-- Counterexample to C9 as stated: status 201 is a 2xx status, yet both
transport functions surface it as a status error — the source compares
against `http.StatusOK` (exactly 200), not against the 2xx class. -/
theorem backend_status_counterexample :
    (200 ≤ 201 ∧ 201 < 300) ∧
    sendRequestToDeepSeek (.httpResponse 201 "created" (some respWithTrace)) =
      .error (.apiError 201 "created") ∧
    sendStreamingRequestToDeepSeek (.httpResponse 201 "created" (some respWithTrace)) =
      .error (.apiError 201 "created") :=
  ⟨by omega, rfl, rfl⟩

/-- C9 (amended): both transport functions return an error carrying the
response's status and body exactly when the status differs from 200; a
200 status is never surfaced as that error, and each call consumes a
single upstream exchange (no retry). -/
theorem backend_status_policy (status : Nat) (body : String)
    (decoded : Option DeepSeekResponse) :
    (status ≠ 200 →
      sendRequestToDeepSeek (.httpResponse status body decoded) =
        .error (.apiError status body) ∧
      sendStreamingRequestToDeepSeek (.httpResponse status body decoded) =
        .error (.apiError status body)) ∧
    (status = 200 →
      (∀ s b, sendRequestToDeepSeek (.httpResponse status body decoded) ≠
        .error (.apiError s b)) ∧
      sendStreamingRequestToDeepSeek (.httpResponse status body decoded) = .ok body) := by
  constructor
  · intro h
    constructor <;> simp [sendRequestToDeepSeek, sendStreamingRequestToDeepSeek, h]
  · intro h
    subst h
    refine ⟨?_, by simp [sendStreamingRequestToDeepSeek]⟩
    intro s b
    cases decoded <;> simp [sendRequestToDeepSeek]

/-- Witness for the amended C9 at concrete inputs: a 404 yields the
status error with its body, a 200 streaming response yields the body as
the stream. -/
theorem backend_status_policy_witness :
    ((404 : Nat) ≠ 200 ∧
      sendRequestToDeepSeek (.httpResponse 404 "nf" none) =
        .error (.apiError 404 "nf")) ∧
    sendStreamingRequestToDeepSeek (.httpResponse 200 "stream" none) = .ok "stream" := by
  have main1 := backend_status_policy 404 "nf" none
  have main2 := backend_status_policy 200 "stream" none
  exact ⟨⟨by omega, (main1.1 (by omega)).1⟩, (main2.2 rfl).2⟩
